import Mathlib

/-!
Verification of the voicelink continuous-capture pipeline.

Shallow embedding of the Python sources under `src/voicelink/`:
`config.py`, `session.py`, `chunked_recorder.py`, `devices.py`,
`auto_detect.py`, `vad.py`.  Floating-point quantities are modelled as
rationals, wall-clock datetimes as rational seconds.
-/

/-- Silence rule of `_save_chunk` (chunked_recorder.py line 183):
a chunk is silent when its rms is below the threshold or its
speech ratio is below 5%. -/
def classify_silent (threshold rms ratio : ℚ) : Bool :=
  decide (rms < threshold) || decide (ratio < 5/100)

/-- Speech ratio of `_calculate_speech_ratio` (chunked_recorder.py lines
115-145).  `segments` is the list of voiced-segment byte lengths produced
by the VAD, or `none` when the VAD backend raised (unavailable backend,
unframable input, unsupported sample rate).  The source returns 0.0 for
an empty buffer, on any exception, and when no segments were produced;
otherwise the voiced sample count (bytes / 2) over the total samples. -/
def calculate_speech_ratio (audioLen : ℕ) (segments : Option (List ℕ)) : ℚ :=
  if audioLen = 0 then 0
  else
    match segments with
    | none => 0
    | some segs =>
        if segs = [] then 0
        else ((segs.map (fun n => (n : ℚ))).sum / 2) / (audioLen : ℚ)

/-! ## Configuration (config.py) -/

/-- Recording settings of `RecordingSettings` (config.py lines 11-18),
with the dataclass field defaults of the source. -/
structure RecordingSettings where
  chunk_duration_seconds : ℤ := 30
  sample_rate : ℤ := 16000
  channels : ℤ := 1
  format : String := "wav"
  silence_threshold : ℚ := 1/1000
deriving DecidableEq, Repr

/-- Session settings of `SessionSettings` (config.py lines 34-38). -/
structure SessionSettings where
  silence_gap_seconds : ℤ := 60
  min_session_duration : ℤ := 30
deriving DecidableEq, Repr

/-- Device settings of `DeviceSettings` (config.py lines 41-52). -/
structure DeviceSettings where
  auto_detect : Bool := true
  auto_switch : Bool := true
  silence_timeout_for_switch : ℚ := 5
  preferred_device : Option String := none
  fallback_devices : List String := ["Voicemeeter Out B1", "Stereo Mix", "CABLE Output"]
deriving DecidableEq, Repr

/-- The full configuration `VoiceLinkConfig` (config.py lines 64-71);
storage and transcription settings carry no data the claims mention
and are omitted. -/
structure VoiceLinkConfig where
  recording : RecordingSettings := {}
  session : SessionSettings := {}
  device : DeviceSettings := {}
deriving DecidableEq, Repr

/-- The default-constructed configuration `VoiceLinkConfig()`. -/
def defaultConfig : VoiceLinkConfig := {}

/-- Configuration loading `VoiceLinkConfig.load` (config.py lines 82-121):
when the config file is absent the default-constructed configuration is
returned; otherwise the loaded overrides apply.  The parsed file is
abstracted to the override function it induces. -/
def loadConfig (fileData : Option (VoiceLinkConfig → VoiceLinkConfig)) : VoiceLinkConfig :=
  match fileData with
  | none => defaultConfig
  | some overrides => overrides defaultConfig

/-! ## Session data model (session.py) -/

/-- One recorded chunk, `AudioChunk` (session.py lines 18-27).
`timestamp` is wall-clock seconds as a rational. -/
structure AudioChunk where
  file_path : String
  timestamp : ℚ
  duration_seconds : ℚ
  index : ℕ
  rms_level : ℚ := 0
  is_silent : Bool := false
  speech_ratio : ℚ := 0
deriving DecidableEq, Repr

/-- A session, `Session` (session.py lines 55-68). -/
structure Session where
  session_id : String
  start_time : ℚ
  end_time : Option ℚ := none
  chunks : List AudioChunk := []
  status : String := "recording"
  tags : List String := []
  transcription_status : String := "pending"
  transcription_path : Option String := none
  notes : String := ""
  title : String := ""
  summary : String := ""
deriving DecidableEq, Repr

/-- Derived `Session.duration_seconds` (session.py lines 70-75): the sum
of durations over the non-silent chunks (0 when there are no chunks). -/
def Session.duration_seconds (s : Session) : ℚ :=
  ((s.chunks.filter (fun c => !c.is_silent)).map (fun c => c.duration_seconds)).sum

/-- Derived `Session.total_chunks` (session.py lines 77-80). -/
def Session.total_chunks (s : Session) : ℕ :=
  s.chunks.length

/-- Derived `Session.avg_rms` (session.py lines 82-88). -/
def Session.avg_rms (s : Session) : ℚ :=
  let ns := s.chunks.filter (fun c => !c.is_silent)
  if ns = [] then 0
  else ((ns.map (fun c => c.rms_level)).sum) / (ns.length : ℚ)

/-- `Session.add_chunk` (session.py lines 90-93): append the chunk and
move `end_time` to the chunk's timestamp plus its duration. -/
def Session.add_chunk (s : Session) (c : AudioChunk) : Session :=
  { s with chunks := s.chunks ++ [c],
           end_time := some (c.timestamp + c.duration_seconds) }

/-- `Session.complete` (session.py lines 105-110): set the status to
completed; when chunks exist and `end_time` is still unset, set it from
the last chunk. -/
def Session.complete (s : Session) : Session :=
  let s1 := { s with status := "completed" }
  match s.chunks.getLast?, s.end_time with
  | some last, none =>
      { s1 with end_time := some (last.timestamp + last.duration_seconds) }
  | _, _ => s1

/-- Session-id generation of `Session.create_new` (session.py lines
149-156); the uuid suffix is abstracted to a deterministic rendering of
the start time. -/
def mkSessionId (start_time : ℚ) : String :=
  "sess_" ++ toString start_time.num ++ "_" ++ toString start_time.den

/-- `Session.create_new` (session.py lines 149-156). -/
def Session.create_new (start_time : ℚ) : Session :=
  { session_id := mkSessionId start_time, start_time := start_time }


/-! ## Serialization and the session store (session.py) -/

/-- Serialized form of a chunk, the dictionary built by
`AudioChunk.to_dict` (session.py lines 29-39).  The datetime isoformat
round-trip of the source is exact, so the timestamp is kept as its
value. -/
structure ChunkDoc where
  file_path : String
  timestamp : ℚ
  duration_seconds : ℚ
  index : ℕ
  rms_level : ℚ
  is_silent : Bool
  speech_ratio : ℚ
deriving DecidableEq, Repr

/-- `AudioChunk.to_dict` (session.py lines 29-39). -/
def AudioChunk.to_dict (c : AudioChunk) : ChunkDoc :=
  { file_path := c.file_path, timestamp := c.timestamp,
    duration_seconds := c.duration_seconds, index := c.index,
    rms_level := c.rms_level, is_silent := c.is_silent,
    speech_ratio := c.speech_ratio }

/-- `AudioChunk.from_dict` (session.py lines 41-52); every key read is
present in any document written by `to_dict`, so the `.get` defaults of
the source cannot fire here. -/
def AudioChunk.from_dict (d : ChunkDoc) : AudioChunk :=
  { file_path := d.file_path, timestamp := d.timestamp,
    duration_seconds := d.duration_seconds, index := d.index,
    rms_level := d.rms_level, is_silent := d.is_silent,
    speech_ratio := d.speech_ratio }

/-- Serialized form of a session, the dictionary built by
`Session.to_dict` (session.py lines 112-129), including the derived
read-only fields the source also emits. -/
structure SessionDoc where
  session_id : String
  start_time : ℚ
  end_time : Option ℚ
  chunks : List ChunkDoc
  status : String
  tags : List String
  transcription_status : String
  transcription_path : Option String
  notes : String
  title : String
  summary : String
  duration_seconds : ℚ
  total_chunks : ℕ
  avg_rms : ℚ
deriving DecidableEq, Repr

/-- `Session.to_dict` (session.py lines 112-129). -/
def Session.to_dict (s : Session) : SessionDoc :=
  { session_id := s.session_id, start_time := s.start_time,
    end_time := s.end_time, chunks := s.chunks.map AudioChunk.to_dict,
    status := s.status, tags := s.tags,
    transcription_status := s.transcription_status,
    transcription_path := s.transcription_path,
    notes := s.notes, title := s.title, summary := s.summary,
    duration_seconds := s.duration_seconds,
    total_chunks := s.total_chunks, avg_rms := s.avg_rms }

/-- `Session.from_dict` (session.py lines 131-147); the derived fields
of the document are ignored, as in the source. -/
def Session.from_dict (d : SessionDoc) : Session :=
  { session_id := d.session_id, start_time := d.start_time,
    end_time := d.end_time, chunks := d.chunks.map AudioChunk.from_dict,
    status := d.status, tags := d.tags,
    transcription_status := d.transcription_status,
    transcription_path := d.transcription_path,
    notes := d.notes, title := d.title, summary := d.summary }

/-- The durable catalog of `SessionManager` (session.py lines 159-204):
rows keyed by session id; only the canonical `data` column matters for
`get_session`, so a row is the id paired with the serialized document. -/
structure Store where
  rows : List (String × SessionDoc)
deriving DecidableEq, Repr

/-- The empty catalog right after `_init_db`. -/
def Store.empty : Store := ⟨[]⟩

/-- `SessionManager.save_session` (session.py lines 206-229):
INSERT OR REPLACE keyed by `session_id`, storing the serialized
document in the `data` column. -/
def Store.saveSession (st : Store) (s : Session) : Store :=
  ⟨(s.session_id, s.to_dict) :: st.rows.filter (fun r => !(r.1 == s.session_id))⟩

/-- `SessionManager.get_session` (session.py lines 231-242): look the
row up by id and deserialize the `data` column. -/
def Store.getSession (st : Store) (sid : String) : Option Session :=
  (st.rows.find? (fun r => r.1 == sid)).map (fun r => Session.from_dict r.2)

/-- `SessionManager.delete_session` (session.py lines 285-303) with
`delete_files=false`, as the recorder calls it: remove the row (a no-op
when the id is absent, matching the early `return False`). -/
def Store.deleteSession (st : Store) (sid : String) : Store :=
  ⟨st.rows.filter (fun r => !(r.1 == sid))⟩

/-! ## Chunked recorder (chunked_recorder.py) -/

/-- The mutable counters of `ChunkedRecorderState` (chunked_recorder.py
lines 25-35) that the chunk path touches. -/
structure RecorderState where
  chunk_count : ℕ := 0
  total_duration : ℚ := 0
  last_chunk_time : Option ℚ := none
deriving DecidableEq, Repr

/-- Relative chunk path built in `_save_chunk` (chunked_recorder.py
lines 156-160); the date and time parts of the name are abstracted to
the timestamp value, keeping the zero-extended index. -/
def chunkRelPath (now : ℚ) (chunk_index : ℕ) : String :=
  toString now.num ++ "_" ++ toString chunk_index ++ ".wav"

/-- Result of one `_save_chunk` call: the returned chunk (`none` on any
failure path), the updated counters, and the `on_chunk_saved` payloads
fired. -/
structure SaveChunkResult where
  chunk : Option AudioChunk
  state : RecorderState
  chunkSavedEvents : List AudioChunk
deriving DecidableEq, Repr

/-- `_save_chunk` (chunked_recorder.py lines 147-222).  The PCM buffer
is abstracted to its sample count `audioLen`, the value `rms` of
`_calculate_rms` on it, and the VAD segment list `vadSegs` (see
`calculate_speech_ratio`).  `convertOk` models the int16 conversion
try/except, `writeOk` the WAV write try/except; on either failure the
source returns `None` before the counters advance and before any
callback fires. -/
def save_chunk (cfg : RecordingSettings) (st : RecorderState) (audioLen : ℕ)
    (now rms : ℚ) (vadSegs : Option (List ℕ)) (convertOk writeOk : Bool) :
    SaveChunkResult :=
  if audioLen = 0 then ⟨none, st, []⟩
  else
    let chunk_index := st.chunk_count + 1
    if !convertOk then ⟨none, st, []⟩
    else
      let ratio := calculate_speech_ratio audioLen vadSegs
      let silent := classify_silent cfg.silence_threshold rms ratio
      if !writeOk then ⟨none, st, []⟩
      else
        let duration : ℚ := (audioLen : ℚ) / ((cfg.sample_rate : ℤ) : ℚ)
        let chunk : AudioChunk :=
          { file_path := chunkRelPath now chunk_index, timestamp := now,
            duration_seconds := duration, index := chunk_index,
            rms_level := rms, is_silent := silent, speech_ratio := ratio }
        ⟨some chunk,
         { chunk_count := chunk_index,
           total_duration := st.total_duration + duration,
           last_chunk_time := some now },
         [chunk]⟩

/-- The session-machine state of the recorder: the current session, the
consecutive-silence counter and the catalog. -/
structure SessState where
  current : Option Session := none
  consecutive_silence : ℕ := 0
  store : Store := Store.empty
deriving DecidableEq, Repr

/-- Lifecycle events fired by one chunk-handling step: the
`on_session_created` payload, the `on_session_completed` payload, the
deletion of the opening chunk's file in the discard branch of
`_start_new_session`, and the `_check_alternative_devices` trigger. -/
structure SessionEvents where
  created : Option Session := none
  completed : Option Session := none
  fileDeleted : Bool := false
  scanRequested : Bool := false
deriving DecidableEq, Repr

/-- The event record of a step that fired nothing. -/
def noEvents : SessionEvents := {}

/-- `_complete_current_session` (chunked_recorder.py lines 298-321):
when no session is active, return unchanged; when the active session is
shorter than `min_session_duration`, delete it from the catalog and
fire nothing; otherwise complete it, persist it and fire
`on_session_completed` with it.  Either way the current session and the
silence counter are reset. -/
def complete_current_session (cfg : SessionSettings) (st : SessState) :
    SessState × Option Session :=
  match st.current with
  | none => (st, none)
  | some s =>
      if s.duration_seconds < ((cfg.min_session_duration : ℤ) : ℚ) then
        ({ current := none, consecutive_silence := 0,
           store := st.store.deleteSession s.session_id }, none)
      else
        let s1 := s.complete
        ({ current := none, consecutive_silence := 0,
           store := st.store.saveSession s1 }, some s1)

/-- `_start_new_session` (chunked_recorder.py lines 260-296): create a
session at the chunk's timestamp, append the chunk, persist; when the
chunk's speech ratio is below 5%, delete the chunk file and discard the
session through `_complete_current_session` without firing
`on_session_created`; otherwise fire `on_session_created`. -/
def start_new_session (cfg : VoiceLinkConfig) (st : SessState)
    (first : AudioChunk) : SessState × SessionEvents :=
  let session := (Session.create_new first.timestamp).add_chunk first
  let st1 : SessState :=
    { st with current := some session, store := st.store.saveSession session }
  if first.speech_ratio < 5/100 then
    let (st2, completedEv) := complete_current_session cfg.session st1
    (st2, { completed := completedEv, fileDeleted := true })
  else
    (st1, { created := some session })

/-- `_handle_session` (chunked_recorder.py lines 224-258): update the
consecutive-silence counter; with no active session, start one on a
non-silent chunk and do nothing on a silent one; with an active
session, append and persist the chunk, complete the session once the
counter reaches `silence_gap_seconds // chunk_duration_seconds`, and
request a device scan after prolonged silence when auto-switch is on.
The scan condition reads the counter after a completion reset, as the
source does. -/
def handle_session (cfg : VoiceLinkConfig) (st : SessState)
    (chunk : AudioChunk) : SessState × SessionEvents :=
  let silence_gap := cfg.session.silence_gap_seconds
  let chunk_duration := cfg.recording.chunk_duration_seconds
  let count := if chunk.is_silent then st.consecutive_silence + 1 else 0
  let st0 : SessState := { st with consecutive_silence := count }
  let silence_chunks_threshold := Int.fdiv silence_gap chunk_duration
  match st0.current with
  | none =>
      if !chunk.is_silent then start_new_session cfg st0 chunk
      else (st0, noEvents)
  | some s =>
      let s1 := s.add_chunk chunk
      let st1 : SessState :=
        { st0 with current := some s1, store := st0.store.saveSession s1 }
      let (st2, completedEv) :=
        if silence_chunks_threshold ≤ (count : ℤ) then
          complete_current_session cfg.session st1
        else (st1, none)
      let scan := cfg.device.auto_switch && chunk.is_silent &&
        decide (cfg.device.silence_timeout_for_switch / ((chunk_duration : ℤ) : ℚ)
                  ≤ (st2.consecutive_silence : ℚ))
      (st2, { completed := completedEv, scanRequested := scan })

/-- The body of `_chunk_processing_loop` after a full chunk has been
split off (chunked_recorder.py lines 380-383): save the chunk, and only
when a chunk object came back hand it to `_handle_session`. -/
def chunk_processing_step (cfg : VoiceLinkConfig) (rec : RecorderState)
    (st : SessState) (audioLen : ℕ) (now rms : ℚ)
    (vadSegs : Option (List ℕ)) (convertOk writeOk : Bool) :
    RecorderState × SessState × SessionEvents × List AudioChunk :=
  let r := save_chunk cfg.recording rec audioLen now rms vadSegs convertOk writeOk
  match r.chunk with
  | some c =>
      let (st1, ev) := handle_session cfg st c
      (r.state, st1, ev, r.chunkSavedEvents)
  | none => (r.state, st, noEvents, r.chunkSavedEvents)

/-- The shutdown path of `stop` (chunked_recorder.py lines 445-477)
after the worker threads have been joined: when the leftover buffer
holds strictly more samples than one second (`len(remaining) >
sample_rate`), save it and hand a returned chunk to `_handle_session`;
then complete the current session.  Returns the flushed chunk, the
final states, the flush events and the `on_session_completed` payload
of the final completion. -/
def stop_recorder (cfg : VoiceLinkConfig) (rec : RecorderState)
    (st : SessState) (remainingLen : ℕ) (now rms : ℚ)
    (vadSegs : Option (List ℕ)) (convertOk writeOk : Bool) :
    Option AudioChunk × RecorderState × SessState × SessionEvents × Option Session :=
  let (flushed, rec1, st1, ev1) :=
    if cfg.recording.sample_rate < (remainingLen : ℤ) then
      let r := save_chunk cfg.recording rec remainingLen now rms vadSegs convertOk writeOk
      match r.chunk with
      | some c =>
          let (st', ev) := handle_session cfg st c
          (some c, r.state, st', ev)
      | none => (none, r.state, st, noEvents)
    else (none, rec, st, noEvents)
  let (st2, completedEv) := complete_current_session cfg.session st1
  (flushed, rec1, st2, ev1, completedEv)

/-! ## Device registry (devices.py) and device supervisor paths
(chunked_recorder.py, auto_detect.py) -/

/-- An enumerated device, `AudioDevice` (devices.py lines 11-23),
restricted to the fields the name lookup touches. -/
structure AudioDevice where
  index : ℕ
  name : String
deriving DecidableEq, Repr

/-- Substring test on character lists, structural form of the Python
`in` operator on strings. -/
def listContainsSub (hay needle : List Char) : Bool :=
  match hay with
  | [] => needle.isEmpty
  | _ :: t => needle.isPrefixOf hay || listContainsSub t needle

/-- Substring test on strings: Python `needle in hay`. -/
def strContainsSub (hay needle : String) : Bool :=
  listContainsSub hay.data needle.data

/-- `get_device_by_name` with `partial_match=True` (devices.py lines
128-140): the first enumerated device whose lowercased name contains
the lowercased query. -/
def get_device_by_name (devices : List AudioDevice) (nm : String) :
    Option AudioDevice :=
  devices.find? (fun d => strContainsSub d.name.toLower nm.toLower)

/-- The names defined at module level by devices.py (its complete
public surface; `find_device_by_name` is not among them). -/
def devicesModuleNames : List String :=
  ["AudioDevice", "list_devices", "list_capture_devices",
   "list_loopback_devices", "get_device_by_index", "get_device_by_name",
   "find_best_loopback_device", "get_default_input_device",
   "get_default_output_device", "print_devices"]

/-- Python `from .devices import <n>`: succeeds exactly when the module
defines the name, else raises ImportError. -/
def importFromDevices (n : String) : Option Unit :=
  if devicesModuleNames.contains n then some () else none

/-- The preferred-device block of `start` (chunked_recorder.py lines
391-403): when a preferred name is configured the source executes
`from .devices import find_device_by_name` inside a try/except; an
exception leaves `self.device` unchanged.  On a successful import the
lookup result's index would replace the device. -/
def resolveDeviceAtStart (preferred : Option String) (device : Option ℕ)
    (devices : List AudioDevice) : Option ℕ :=
  match preferred with
  | none => device
  | some nm =>
      match importFromDevices "find_device_by_name" with
      | none => device
      | some _ =>
          match get_device_by_name devices nm with
          | some d => some d.index
          | none => device

/-- A probe hit as `_scan_and_switch` consumes it: the device
`find_active_audio_device` would return, with its measured rms. -/
structure ProbeHit where
  index : ℕ
  name : String
  rms_level : ℚ
deriving DecidableEq, Repr

/-- The keyword parameters accepted by `find_active_audio_device`
(auto_detect.py lines 109-115). -/
def findActiveAudioDeviceParams : List String :=
  ["probe_duration", "threshold", "prefer_virtual", "exclude_keywords",
   "verbose"]

/-- The keyword arguments `_scan_and_switch` passes to
`find_active_audio_device` (chunked_recorder.py lines 520-526). -/
def scanAndSwitchCallKeywords : List String :=
  ["probe_duration", "threshold", "exclude_keywords", "exclude_indices",
   "verbose"]

/-- Python call binding: a keyword argument outside the callee's
parameter list raises TypeError before the callee's body runs. -/
def scanCallRaisesTypeError : Bool :=
  !(scanAndSwitchCallKeywords.all (fun k => findActiveAudioDeviceParams.contains k))

/-- Outcome of one `_scan_and_switch` run (chunked_recorder.py lines
507-535). -/
inductive ScanOutcome where
  | switched (idx : ℕ)
  | noSwitch
  | scanFailed
deriving DecidableEq, Repr

/-- `_scan_and_switch` (chunked_recorder.py lines 507-535): the whole
body is a try/except; the call into `find_active_audio_device` raises
when its keyword binding fails, landing in the except branch before any
probing, and otherwise a hit on a device other than the current one
leads to `switch_device(hit.index)`. -/
def scan_and_switch (currentIdx : ℕ) (probe : Option ProbeHit) : ScanOutcome :=
  if scanCallRaisesTypeError then ScanOutcome.scanFailed
  else
    match probe with
    | some hit =>
        if hit.index ≠ currentIdx then ScanOutcome.switched hit.index
        else ScanOutcome.noSwitch
    | none => ScanOutcome.noSwitch

/-- The rate limiter of `_check_alternative_devices` (chunked_recorder.py
lines 495-505): a scan within 5 seconds of the previous one is skipped;
otherwise the scan time is recorded and the background scan spawned. -/
def check_alternative_devices (now lastScanTime : ℚ) : Bool × ℚ :=
  if now - lastScanTime < 5 then (false, lastScanTime)
  else (true, now)

/-! ## Supporting lemmas -/

/-- Deserializing a serialized chunk restores it exactly. -/
theorem chunk_from_to (c : AudioChunk) :
    AudioChunk.from_dict (AudioChunk.to_dict c) = c := rfl

/-- Chunk lists survive the serialization round trip. -/
theorem chunk_map_from_to (l : List AudioChunk) :
    l.map (AudioChunk.from_dict ∘ AudioChunk.to_dict) = l := by
  rw [show AudioChunk.from_dict ∘ AudioChunk.to_dict = id from funext chunk_from_to,
    List.map_id]

/-- Deserializing a serialized session restores it exactly, chunk order
included. -/
theorem session_from_to (s : Session) :
    Session.from_dict (Session.to_dict s) = s := by
  cases s
  simp [Session.from_dict, Session.to_dict, chunk_map_from_to]

/-- Looking a session up right after saving it yields it back. -/
theorem store_save_get (st : Store) (s : Session) :
    (st.saveSession s).getSession s.session_id = some s := by
  unfold Store.saveSession Store.getSession
  rw [List.find?_cons_of_pos _ (by simp)]
  simp [session_from_to]

/-- Looking a session up right after deleting it yields nothing. -/
theorem store_delete_get (st : Store) (sid : String) :
    (st.deleteSession sid).getSession sid = none := by
  unfold Store.deleteSession Store.getSession
  have h : (st.rows.filter (fun r => !(r.1 == sid))).find? (fun r => r.1 == sid)
      = none := by
    rw [List.find?_eq_none]
    intro x hx
    have := (List.mem_filter.mp hx).2
    simpa using this
  rw [h]
  rfl

/-- `Session.complete` keeps the chunk list. -/
theorem Session.complete_chunks (s : Session) : s.complete.chunks = s.chunks := by
  unfold Session.complete
  cases h1 : s.chunks.getLast? <;> cases h2 : s.end_time <;> rfl

/-- `Session.complete` keeps the session id. -/
theorem Session.complete_session_id (s : Session) :
    s.complete.session_id = s.session_id := by
  unfold Session.complete
  cases h1 : s.chunks.getLast? <;> cases h2 : s.end_time <;> rfl

/-- `Session.complete` sets the status to completed. -/
theorem Session.complete_status (s : Session) :
    s.complete.status = "completed" := by
  unfold Session.complete
  cases h1 : s.chunks.getLast? <;> cases h2 : s.end_time <;> rfl

/-- `Session.complete` keeps the non-silent duration. -/
theorem Session.complete_duration (s : Session) :
    s.complete.duration_seconds = s.duration_seconds := by
  unfold Session.duration_seconds
  rw [Session.complete_chunks]

/-- On a session whose `end_time` agrees with its last chunk (as
`add_chunk` always leaves it), `Session.complete` leaves `end_time`
equal to the last chunk's timestamp plus its duration. -/
theorem Session.complete_end_time (s : Session)
    (hend : s.end_time =
      (s.chunks.getLast?).map (fun c => c.timestamp + c.duration_seconds)) :
    s.complete.end_time =
      (s.chunks.getLast?).map (fun c => c.timestamp + c.duration_seconds) := by
  unfold Session.complete
  cases h1 : s.chunks.getLast? <;> cases h2 : s.end_time <;>
    simp_all

/-! ## Claim theorems -/

/-- C1 (counterexample): the default-constructed configuration does
not carry the claimed values; in the source `silence_threshold` is
0.001, `silence_gap_seconds` is 60 and `min_session_duration` is 30. -/
theorem C1_default_settings_counterexample :
    ¬ (defaultConfig.recording.chunk_duration_seconds = 30 ∧
       defaultConfig.recording.sample_rate = 16000 ∧
       defaultConfig.recording.channels = 1 ∧
       defaultConfig.recording.silence_threshold = 1/100 ∧
       defaultConfig.session.silence_gap_seconds = 10 ∧
       defaultConfig.session.min_session_duration = 10) := by
  intro h
  exact absurd h.2.2.2.2.1 (by decide)

/-- C1 (amended): for the default-constructed configuration, the
recording and session defaults are `chunk_duration_seconds = 30`,
`sample_rate = 16000`, `channels = 1`, `silence_threshold = 0.001`,
`silence_gap_seconds = 60` and `min_session_duration = 30`. -/
theorem C1_default_settings :
    defaultConfig.recording.chunk_duration_seconds = 30 ∧
    defaultConfig.recording.sample_rate = 16000 ∧
    defaultConfig.recording.channels = 1 ∧
    defaultConfig.recording.silence_threshold = 1/1000 ∧
    defaultConfig.session.silence_gap_seconds = 60 ∧
    defaultConfig.session.min_session_duration = 30 :=
  ⟨rfl, rfl, rfl, rfl, rfl, rfl⟩

/-- C2 (counterexample): with the VAD unavailable the speech ratio is 0,
yet a chunk whose rms 1 is far above the default threshold is still
classified silent, so silence is not equivalent to the rms gate alone. -/
theorem C2_vad_fallback_counterexample :
    calculate_speech_ratio 16000 none = 0 ∧
    classify_silent defaultConfig.recording.silence_threshold 1
      (calculate_speech_ratio 16000 none) = true ∧
    ¬ ((1 : ℚ) < defaultConfig.recording.silence_threshold) := by
  refine ⟨rfl, ?_, by norm_num [defaultConfig]⟩
  simp [classify_silent, calculate_speech_ratio]

/-- C2 (amended): for every PCM buffer, if the VAD backend is
unavailable or the buffer cannot be framed, the chunk's speech ratio is
0, and the chunk is then classified silent unconditionally — whatever
its rms and the configured threshold — because the 0 speech ratio is
below the 0.05 gate. -/
theorem C2_vad_fallback (audioLen : ℕ) (threshold rms : ℚ) :
    calculate_speech_ratio audioLen none = 0 ∧
    calculate_speech_ratio audioLen (some []) = 0 ∧
    classify_silent threshold rms (calculate_speech_ratio audioLen none) = true ∧
    classify_silent threshold rms (calculate_speech_ratio audioLen (some [])) = true := by
  have h0 : calculate_speech_ratio audioLen none = 0 := by
    unfold calculate_speech_ratio
    split <;> rfl
  have h1 : calculate_speech_ratio audioLen (some []) = 0 := by
    unfold calculate_speech_ratio
    split <;> rfl
  refine ⟨h0, h1, ?_, ?_⟩ <;> simp [classify_silent, h0, h1]

/-- C3: the silence-triggered scan never reaches `switch_device`.
The call `_scan_and_switch` makes into `find_active_audio_device`
passes the keyword argument `exclude_indices`, which is not a parameter
of that function, so every scan raises TypeError into the surrounding
except block — whatever device a probe would have reported. -/
theorem C3_scan_and_switch_raises (currentIdx : ℕ) (probe : Option ProbeHit) :
    scanCallRaisesTypeError = true ∧
    scan_and_switch currentIdx probe = ScanOutcome.scanFailed := by
  have h : scanCallRaisesTypeError = true := by decide
  exact ⟨h, by simp [scan_and_switch, h]⟩

/-- C4: the preferred-device resolution at `start()` never happens.
The source imports `find_device_by_name` from the devices module, which
defines no such name (its lookup is `get_device_by_name`), so the
importing raises into the surrounding except block and the previously
supplied device index is kept whatever the enumeration holds. -/
theorem C4_preferred_device_import_error (nm : String) (device : Option ℕ)
    (devices : List AudioDevice) :
    importFromDevices "find_device_by_name" = none ∧
    resolveDeviceAtStart (some nm) device devices = device := by
  have h : importFromDevices "find_device_by_name" = none := by decide
  exact ⟨h, by simp [resolveDeviceAtStart, h]⟩

/-- C5: completing the current session deletes it from the store and
fires nothing when its non-silent duration is below
`min_session_duration`; otherwise it is completed (status, end time
from the last chunk), persisted and fired — so any fired session has
duration at least `min_session_duration`.  The `end_time` hypothesis is
the shape `add_chunk` always leaves behind. -/
theorem C5_session_completion (cfg : SessionSettings) (s : Session)
    (store : Store) (k : ℕ)
    (hend : s.end_time =
      (s.chunks.getLast?).map (fun c => c.timestamp + c.duration_seconds)) :
    (s.duration_seconds < ((cfg.min_session_duration : ℤ) : ℚ) →
      (complete_current_session cfg ⟨some s, k, store⟩).1.store.getSession
          s.session_id = none ∧
      (complete_current_session cfg ⟨some s, k, store⟩).2 = none) ∧
    (((cfg.min_session_duration : ℤ) : ℚ) ≤ s.duration_seconds →
      (complete_current_session cfg ⟨some s, k, store⟩).2 = some s.complete ∧
      s.complete.status = "completed" ∧
      s.complete.end_time =
        (s.chunks.getLast?).map (fun c => c.timestamp + c.duration_seconds) ∧
      (complete_current_session cfg ⟨some s, k, store⟩).1.store.getSession
          s.session_id = some s.complete) ∧
    (∀ s', (complete_current_session cfg ⟨some s, k, store⟩).2 = some s' →
      ((cfg.min_session_duration : ℤ) : ℚ) ≤ s'.duration_seconds) := by
  refine ⟨?_, ?_, ?_⟩
  · intro hlt
    simp [complete_current_session, hlt, store_delete_get]
  · intro hge
    have hnlt : ¬ s.duration_seconds < ((cfg.min_session_duration : ℤ) : ℚ) :=
      not_lt.mpr hge
    refine ⟨by simp [complete_current_session, hnlt], Session.complete_status s,
      Session.complete_end_time s hend, ?_⟩
    have hkey := store_save_get store s.complete
    rw [Session.complete_session_id] at hkey
    simp [complete_current_session, hnlt, hkey]
  · intro s' h
    by_cases hlt : s.duration_seconds < ((cfg.min_session_duration : ℤ) : ℚ)
    · simp [complete_current_session, hlt] at h
    · have hnlt := hlt
      simp [complete_current_session, hnlt] at h
      rw [← h, Session.complete_duration]
      exact not_lt.mp hlt

/-- Concrete session used to instantiate C5: one non-silent 40 second
chunk, so its duration exceeds the default minimum of 30. -/
def c5Session : Session :=
  (Session.create_new 0).add_chunk
    { file_path := "a.wav", timestamp := 0, duration_seconds := 40,
      index := 1, rms_level := 1, is_silent := false, speech_ratio := 1/2 }

/-- Witness for C5 at a concrete session of duration 40 against the
default minimum session duration of 30. -/
theorem C5_session_completion_witness :
    (complete_current_session defaultConfig.session
        ⟨some c5Session, 0, Store.empty⟩).2 = some c5Session.complete ∧
    c5Session.complete.status = "completed" ∧
    c5Session.complete.end_time =
      (c5Session.chunks.getLast?).map (fun c => c.timestamp + c.duration_seconds) ∧
    (complete_current_session defaultConfig.session
        ⟨some c5Session, 0, Store.empty⟩).1.store.getSession
        c5Session.session_id = some c5Session.complete :=
  (C5_session_completion defaultConfig.session c5Session Store.empty 0
      (by simp [c5Session, Session.add_chunk, Session.create_new])).2.1
    (by norm_num [c5Session, Session.duration_seconds, Session.add_chunk,
      Session.create_new, defaultConfig])

/-- C6: every chunk `_save_chunk` returns is silent exactly when its
rms is below `silence_threshold` or its speech ratio is below 0.05. -/
theorem C6_chunk_silence_rule (cfg : RecordingSettings) (st : RecorderState)
    (audioLen : ℕ) (now rms : ℚ) (vadSegs : Option (List ℕ))
    (convertOk writeOk : Bool) (c : AudioChunk)
    (h : (save_chunk cfg st audioLen now rms vadSegs convertOk writeOk).chunk
        = some c) :
    c.is_silent = true ↔
      (c.rms_level < cfg.silence_threshold ∨ c.speech_ratio < 5/100) := by
  unfold save_chunk at h
  split at h
  · exact absurd h (by simp)
  · split at h
    · exact absurd h (by simp)
    · split at h
      · exact absurd h (by simp)
      · cases Option.some.inj h
        simp [classify_silent]

/-- Concrete chunk `_save_chunk` produces for a one-second non-silent
buffer whose VAD marked half the samples voiced. -/
def c6Chunk : AudioChunk :=
  { file_path := chunkRelPath 0 1, timestamp := 0,
    duration_seconds := (16000 : ℚ) / ((16000 : ℤ) : ℚ), index := 1,
    rms_level := 1/10,
    is_silent := classify_silent defaultConfig.recording.silence_threshold (1/10)
      (calculate_speech_ratio 16000 (some [16000])),
    speech_ratio := calculate_speech_ratio 16000 (some [16000]) }

/-- Witness for C6 on a concrete saved chunk. -/
theorem C6_chunk_silence_rule_witness :
    (save_chunk defaultConfig.recording {} 16000 0 (1/10) (some [16000])
        true true).chunk = some c6Chunk ∧
    (c6Chunk.is_silent = true ↔
      (c6Chunk.rms_level < defaultConfig.recording.silence_threshold ∨
        c6Chunk.speech_ratio < 5/100)) :=
  ⟨rfl, C6_chunk_silence_rule defaultConfig.recording {} 16000 0 (1/10)
      (some [16000]) true true c6Chunk rfl⟩

/-- A successful save of a nonempty buffer returns a chunk. -/
theorem save_chunk_isSome (cfg : RecordingSettings) (st : RecorderState)
    (audioLen : ℕ) (now rms : ℚ) (vadSegs : Option (List ℕ))
    (h : audioLen ≠ 0) :
    ∃ c, (save_chunk cfg st audioLen now rms vadSegs true true).chunk = some c := by
  unfold save_chunk
  simp [h]

/-- C7 (counterexample): a leftover buffer of exactly one second
(sample count equal to `sample_rate`, hence at least one second) is
not flushed by `stop`; the source requires strictly more than
`sample_rate` samples. -/
theorem C7_stop_flush_counterexample :
    defaultConfig.recording.sample_rate ≤ (16000 : ℤ) ∧
    (stop_recorder defaultConfig {} {} 16000 0 1 (some [16000]) true true).1
      = none :=
  ⟨by decide, rfl⟩

/-- C7 (amended): on `stop()`, a partial buffer is flushed as a final
chunk — saved and handed to session handling before the current
session is completed — exactly when it holds strictly more samples than
one second of audio (`sample count > sample_rate`); a remainder of at
most `sample_rate` samples is discarded. -/
theorem C7_stop_flush (cfg : VoiceLinkConfig) (rec : RecorderState)
    (st : SessState) (remainingLen : ℕ) (now rms : ℚ)
    (vadSegs : Option (List ℕ)) :
    ((stop_recorder cfg rec st remainingLen now rms vadSegs true true).1.isSome
        = true ↔
      (cfg.recording.sample_rate < (remainingLen : ℤ) ∧ remainingLen ≠ 0)) ∧
    (∀ c,
      (stop_recorder cfg rec st remainingLen now rms vadSegs true true).1
          = some c →
      (stop_recorder cfg rec st remainingLen now rms vadSegs true true).2.2.1 =
        (complete_current_session cfg.session (handle_session cfg st c).1).1) := by
  constructor
  · by_cases hlen : cfg.recording.sample_rate < (remainingLen : ℤ)
    · by_cases hzero : remainingLen = 0
      · subst hzero
        simp [stop_recorder, save_chunk, hlen]
      · obtain ⟨c, hc⟩ :=
          save_chunk_isSome cfg.recording rec remainingLen now rms vadSegs hzero
        simp [stop_recorder, hlen, hc, hzero]
    · simp [stop_recorder, hlen]
  · intro c hc
    by_cases hlen : cfg.recording.sample_rate < (remainingLen : ℤ)
    · rcases hr : (save_chunk cfg.recording rec remainingLen now rms vadSegs
          true true).chunk with _ | c'
      · simp [stop_recorder, hlen, hr] at hc
      · simp [stop_recorder, hlen, hr] at hc ⊢
        subst hc
        rfl
    · simp [stop_recorder, hlen] at hc

/-- C8: saving a session and reading it back by its id returns a
structurally equal session — every declared field, chunk order and
chunk fields included — because the serialized document round-trips. -/
theorem C8_save_get_roundtrip (st : Store) (s : Session) :
    Session.from_dict (Session.to_dict s) = s ∧
    (st.saveSession s).getSession s.session_id = some s :=
  ⟨session_from_to s, store_save_get st s⟩

/-- C9: when the WAV write fails, `_save_chunk` returns no chunk, the
chunk counter and the other recorder counters stay unchanged, the
session machine is untouched, and no event fires; the loop body simply
returns. -/
theorem C9_write_failure_drops_chunk (cfg : VoiceLinkConfig)
    (rec : RecorderState) (st : SessState) (audioLen : ℕ) (now rms : ℚ)
    (vadSegs : Option (List ℕ)) (convertOk : Bool) :
    (save_chunk cfg.recording rec audioLen now rms vadSegs convertOk
        false).chunk = none ∧
    chunk_processing_step cfg rec st audioLen now rms vadSegs convertOk false =
      (rec, st, noEvents, []) := by
  have h : save_chunk cfg.recording rec audioLen now rms vadSegs convertOk false
      = ⟨none, rec, []⟩ := by
    unfold save_chunk
    split
    · rfl
    · split
      · rfl
      · simp
  refine ⟨by rw [h], ?_⟩
  unfold chunk_processing_step
  rw [h]

/-- C10: a chunk that carries the `_save_chunk` silence verdict and is
non-silent necessarily has speech ratio at least 0.05, so when it opens
a session the discard branch of `_start_new_session` cannot run: no
chunk file is deleted and `on_session_created` fires with the new
session; a silent chunk opens no session at all. -/
theorem C10_session_start_guard (cfg : VoiceLinkConfig) (st : SessState)
    (c : AudioChunk)
    (hclass : c.is_silent =
      classify_silent cfg.recording.silence_threshold c.rms_level c.speech_ratio)
    (hcur : st.current = none) :
    (c.is_silent = true →
      handle_session cfg st c =
        ({ st with consecutive_silence := st.consecutive_silence + 1 },
          noEvents)) ∧
    (c.is_silent = false →
      5/100 ≤ c.speech_ratio ∧
      (handle_session cfg st c).2.fileDeleted = false ∧
      (handle_session cfg st c).2.created =
        some ((Session.create_new c.timestamp).add_chunk c)) := by
  constructor
  · intro hs
    simp [handle_session, hs, hcur]
  · intro hs
    have hratio : ¬ (c.speech_ratio < 5/100) := by
      intro hlt
      rw [hs] at hclass
      simp [classify_silent] at hclass
      exact absurd hlt (not_lt.mpr hclass.2)
    refine ⟨not_lt.mp hratio, ?_, ?_⟩ <;>
      simp [handle_session, hs, hcur, start_new_session, hratio]

/-- Concrete non-silent chunk carrying the `_save_chunk` verdict, used
to instantiate C10. -/
def c10Chunk : AudioChunk :=
  { file_path := "b.wav", timestamp := 0, duration_seconds := 30, index := 1,
    rms_level := 1/10, is_silent := false, speech_ratio := 1/2 }

/-- Witness for C10 on a concrete non-silent opening chunk. -/
theorem C10_session_start_guard_witness :
    5/100 ≤ c10Chunk.speech_ratio ∧
    (handle_session defaultConfig {} c10Chunk).2.fileDeleted = false ∧
    (handle_session defaultConfig {} c10Chunk).2.created =
      some ((Session.create_new c10Chunk.timestamp).add_chunk c10Chunk) :=
  (C10_session_start_guard defaultConfig {} c10Chunk
      (by
        simp [c10Chunk, classify_silent, defaultConfig]
        norm_num)
      rfl).2 rfl
